import Mathlib

/-!
Verification of the EyeGuard browser extension against its specification.

The development shallowly embeds the extension's core logic in Lean:

* the break/idle coordinator of the background service worker
  (`handleBreakTick`, snooze/completed/status/settings-update message
  handlers, alarm bookkeeping, broadcast to tabs);
* the settings validator of the options page (`validateSettings`,
  `saveSettings`);
* the proximity sampler of the offscreen document (`estimateFaceSize`,
  `performCalibration`, `checkProximity`, `performSample`), in both
  variants present in the repository (the canonical message-proxying
  `offscreen.js` and the older direct-storage variant).

JavaScript numbers are modelled as exact rationals (`ℚ`); timestamps are
rationals in milliseconds.  A JavaScript value that can be `undefined`
is modelled as an `Option`; comparisons against `undefined`/`NaN` are
`false`, matching JavaScript semantics, and this is noted at each use.
-/

namespace EyeGuard

/-- A full settings record, as built by the options form (`readForm`) and
by the `DEFAULT_SETTINGS` objects of the background script and options
page.  Numeric fields are JavaScript numbers, modelled as `ℚ`. -/
structure Settings where
  enabled : Bool
  autoStart : Bool
  theme : String
  proximityEnabled : Bool
  sensitivity : ℚ
  proximityPeriodSeconds : ℚ
  breaksEnabled : Bool
  breakIntervalMinutes : ℚ
  breakDurationSeconds : ℚ
  snoozeMinutes : ℚ
deriving DecidableEq

/-- `DEFAULT_SETTINGS` of the background script (and `DEFAULTS` of the
options page; the two objects list the same fields and values). -/
def DEFAULT_SETTINGS : Settings where
  enabled := true
  autoStart := true
  theme := "system"
  proximityEnabled := true
  sensitivity := 3/2
  proximityPeriodSeconds := 30
  breaksEnabled := true
  breakIntervalMinutes := 20
  breakDurationSeconds := 20
  snoozeMinutes := 5

/-- Messages broadcast or sent between contexts (only the fire-and-forget
events the claims are about). -/
inductive Msg where
  | breakReminder
  | proximityWarning
deriving DecidableEq

/-- Result of `chrome.idle.queryState`: `"active"`, `"idle"` or
`"locked"`.  The code only compares the state against `"active"`. -/
inductive IdleState where
  | active
  | idle
  | locked
deriving DecidableEq

/-- The background script's module-level mutable state:
`activeMinutes`, `isBreakInProgress`, `snoozedUntilMs`. -/
structure CoordState where
  activeMinutes : ℕ
  isBreakInProgress : Bool
  snoozedUntilMs : ℚ
deriving DecidableEq

/-- Observable outcome of one `handleBreakTick` invocation: the new
coordinator state, the successive values of `activeMinutes` persisted to
`chrome.storage.local` during the tick (in order), and the messages
broadcast to the presentation surfaces. -/
structure TickResult where
  state : CoordState
  writes : List ℕ
  events : List Msg
deriving DecidableEq

/-- `broadcastMessage` of the background script: `chrome.tabs.query({})`
followed by `chrome.tabs.sendMessage(tab.id, message)` for every tab,
with per-tab errors ignored.  One broadcast delivers one copy of the
message to every tab. -/
def broadcastMessage (tabs : List ℕ) (m : Msg) : List (ℕ × Msg) :=
  tabs.map (fun t => (t, m))

/-- `handleBreakTick` of the background script, given the current time
`now` (`Date.now()`), the settings record read from storage, the idle
state reported by `chrome.idle.queryState(60, ...)`, and the module
state.  Guard order follows the source: disabled-subsystem check, then
snooze check, then the idle-state branches. -/
def handleBreakTick (now : ℚ) (s : Settings) (ist : IdleState)
    (st : CoordState) : TickResult :=
  if s.enabled = false ∨ s.breaksEnabled = false then
    { state := st, writes := [], events := [] }
  else if now < st.snoozedUntilMs then
    { state := st, writes := [], events := [] }
  else if ist = IdleState.active ∧ st.isBreakInProgress = false then
    let newActive := st.activeMinutes + 1
    if (newActive : ℚ) ≥ s.breakIntervalMinutes then
      { state := { st with activeMinutes := 0 },
        writes := [newActive, 0],
        events := [Msg.breakReminder] }
    else
      { state := { st with activeMinutes := newActive },
        writes := [newActive],
        events := [] }
  else if ist ≠ IdleState.active then
    { state := { st with activeMinutes := 0 }, writes := [0], events := [] }
  else
    { state := st, writes := [], events := [] }

/-- The `eyeguard.break.snooze` message handler:
`snoozedUntilMs = Date.now() + settings.snoozeMinutes * 60 * 1000`
(`snoozeMinutes * 60` seconds); `activeMinutes` and `isBreakInProgress`
are not touched. -/
def handleSnooze (now : ℚ) (s : Settings) (st : CoordState) : CoordState :=
  { st with snoozedUntilMs := now + s.snoozeMinutes * 60 * 1000 }

/-- The `eyeguard.break.completed` message handler: clears the
break-in-progress flag and resets `activeMinutes` to 0 (persisted). -/
def handleBreakCompleted (st : CoordState) : CoordState :=
  { st with isBreakInProgress := false, activeMinutes := 0 }

/-- C1: when the user is idle-active, no break is in progress, breaks are
enabled and the snooze window has passed, a tick that raises
`activeMinutes` to reach or exceed `breakIntervalMinutes` resets
`activeMinutes` to 0 and emits exactly one break-reminder broadcast,
delivered to every tab. -/
theorem tick_interval_reached_resets_and_reminds
    (now : ℚ) (s : Settings) (st : CoordState) (tabs : List ℕ)
    (hen : s.enabled = true) (hbr : s.breaksEnabled = true)
    (hsn : ¬ now < st.snoozedUntilMs)
    (hip : st.isBreakInProgress = false)
    (hreach : ((st.activeMinutes + 1 : ℕ) : ℚ) ≥ s.breakIntervalMinutes) :
    (handleBreakTick now s IdleState.active st).state.activeMinutes = 0 ∧
    (handleBreakTick now s IdleState.active st).events = [Msg.breakReminder] ∧
    broadcastMessage tabs Msg.breakReminder
      = tabs.map (fun t => (t, Msg.breakReminder)) := by
  have h2 : s.breakIntervalMinutes ≤ (st.activeMinutes : ℚ) + 1 := by
    push_cast at hreach
    linarith
  simp [handleBreakTick, hen, hbr, hsn, hip, h2, broadcastMessage]

/-- Witness for C1, the spec's scenario: interval 20 (default settings),
elapsed 19, active, two tabs → elapsed 0, one reminder, delivered to
both tabs. -/
theorem tick_interval_reached_witness :
    (handleBreakTick 0 DEFAULT_SETTINGS IdleState.active
        ⟨19, false, 0⟩).state.activeMinutes = 0 ∧
    (handleBreakTick 0 DEFAULT_SETTINGS IdleState.active
        ⟨19, false, 0⟩).events = [Msg.breakReminder] ∧
    broadcastMessage [1, 2] Msg.breakReminder
      = [1, 2].map (fun t => (t, Msg.breakReminder)) :=
  tick_interval_reached_resets_and_reminds 0 DEFAULT_SETTINGS ⟨19, false, 0⟩
    [1, 2] rfl rfl (by norm_num [DEFAULT_SETTINGS]) rfl
    (by norm_num [DEFAULT_SETTINGS])

/-- C2: with `activeMinutes < breakIntervalMinutes`, idle state active,
no break in progress, breaks enabled and the snooze window passed, one
tick increments `activeMinutes` by exactly 1 (the first value persisted
by the tick is the old value plus 1), and when the incremented value is
still below `breakIntervalMinutes` it is the tick's final value and no
message is emitted. -/
theorem tick_increments_by_one
    (now : ℚ) (s : Settings) (st : CoordState)
    (hen : s.enabled = true) (hbr : s.breaksEnabled = true)
    (hsn : ¬ now < st.snoozedUntilMs)
    (hip : st.isBreakInProgress = false)
    (hlt : ((st.activeMinutes : ℕ) : ℚ) < s.breakIntervalMinutes) :
    (handleBreakTick now s IdleState.active st).writes.head?
      = some (st.activeMinutes + 1) ∧
    (((st.activeMinutes + 1 : ℕ) : ℚ) < s.breakIntervalMinutes →
      (handleBreakTick now s IdleState.active st).state.activeMinutes
        = st.activeMinutes + 1 ∧
      (handleBreakTick now s IdleState.active st).events = []) := by
  constructor
  · simp [handleBreakTick, hen, hbr, hsn, hip]
    split <;> simp
  · intro hbelow
    have hnot : ¬ s.breakIntervalMinutes ≤ (st.activeMinutes : ℚ) + 1 := by
      push_cast at hbelow
      linarith
    simp [handleBreakTick, hen, hbr, hsn, hip, hnot]

/-- Witness for C2: elapsed 3, default settings (interval 20) → the tick
persists 4 first, final elapsed 4, no events. -/
theorem tick_increments_by_one_witness :
    (handleBreakTick 0 DEFAULT_SETTINGS IdleState.active
        ⟨3, false, 0⟩).writes.head? = some 4 ∧
    (((3 + 1 : ℕ) : ℚ) < DEFAULT_SETTINGS.breakIntervalMinutes →
      (handleBreakTick 0 DEFAULT_SETTINGS IdleState.active
          ⟨3, false, 0⟩).state.activeMinutes = 4 ∧
      (handleBreakTick 0 DEFAULT_SETTINGS IdleState.active
          ⟨3, false, 0⟩).events = []) :=
  tick_increments_by_one 0 DEFAULT_SETTINGS ⟨3, false, 0⟩ rfl rfl
    (by norm_num [DEFAULT_SETTINGS]) rfl (by norm_num [DEFAULT_SETTINGS])

/-- C3: a tick that observes an idle state other than `"active"` (with
breaks enabled and the snooze window passed) resets `activeMinutes` to 0
and emits nothing, regardless of the prior value and of the
break-in-progress flag. -/
theorem tick_idle_resets_elapsed
    (now : ℚ) (s : Settings) (ist : IdleState) (st : CoordState)
    (hen : s.enabled = true) (hbr : s.breaksEnabled = true)
    (hsn : ¬ now < st.snoozedUntilMs)
    (hidle : ist ≠ IdleState.active) :
    (handleBreakTick now s ist st).state.activeMinutes = 0 ∧
    (handleBreakTick now s ist st).events = [] := by
  simp [handleBreakTick, hen, hbr, hsn, hidle]

/-- Witness for C3: idle state `"idle"`, elapsed 17 → reset to 0, no
events. -/
theorem tick_idle_resets_elapsed_witness :
    (handleBreakTick 0 DEFAULT_SETTINGS IdleState.idle
        ⟨17, false, 0⟩).state.activeMinutes = 0 ∧
    (handleBreakTick 0 DEFAULT_SETTINGS IdleState.idle
        ⟨17, false, 0⟩).events = [] :=
  tick_idle_resets_elapsed 0 DEFAULT_SETTINGS IdleState.idle ⟨17, false, 0⟩
    rfl rfl (by norm_num [DEFAULT_SETTINGS]) (by decide)

/-- C4: a `break.snooze` message sets
`snoozedUntilMs = now + snoozeMinutes * 60 * 1000` and leaves
`activeMinutes` and `isBreakInProgress` unchanged, and every tick whose
time satisfies `now < snoozedUntilMs` is a no-op: the whole coordinator
state is returned unchanged, nothing is persisted and nothing is
emitted, for any settings record and idle state the tick might read. -/
theorem snooze_suppresses_ticks
    (now : ℚ) (s : Settings) (st : CoordState)
    (tick : ℚ) (s2 : Settings) (ist : IdleState)
    (h : tick < (handleSnooze now s st).snoozedUntilMs) :
    (handleSnooze now s st).activeMinutes = st.activeMinutes ∧
    (handleSnooze now s st).isBreakInProgress = st.isBreakInProgress ∧
    (handleSnooze now s st).snoozedUntilMs
      = now + s.snoozeMinutes * 60 * 1000 ∧
    handleBreakTick tick s2 ist (handleSnooze now s st)
      = { state := handleSnooze now s st, writes := [], events := [] } := by
  refine ⟨rfl, rfl, rfl, ?_⟩
  unfold handleBreakTick
  by_cases hg : s2.enabled = false ∨ s2.breaksEnabled = false
  · rw [if_pos hg]
  · rw [if_neg hg, if_pos h]

/-- Witness for C4: snooze at time 1000 with default settings (5
minutes), tick at time 2000 < 301000 → no-op. -/
theorem snooze_suppresses_ticks_witness :
    (handleSnooze 1000 DEFAULT_SETTINGS ⟨7, false, 0⟩).activeMinutes = 7 ∧
    (handleSnooze 1000 DEFAULT_SETTINGS ⟨7, false, 0⟩).isBreakInProgress
      = false ∧
    (handleSnooze 1000 DEFAULT_SETTINGS ⟨7, false, 0⟩).snoozedUntilMs
      = 1000 + DEFAULT_SETTINGS.snoozeMinutes * 60 * 1000 ∧
    handleBreakTick 2000 DEFAULT_SETTINGS IdleState.active
        (handleSnooze 1000 DEFAULT_SETTINGS ⟨7, false, 0⟩)
      = { state := handleSnooze 1000 DEFAULT_SETTINGS ⟨7, false, 0⟩,
          writes := [], events := [] } :=
  snooze_suppresses_ticks 1000 DEFAULT_SETTINGS ⟨7, false, 0⟩ 2000
    DEFAULT_SETTINGS IdleState.active
    (by norm_num [handleSnooze, DEFAULT_SETTINGS])

/-- A settings payload as it travels in an `eyeguard.settings.update`
message and as it is stored under the `settings` key.  JavaScript
objects may omit any field (the popup toggles send one-field objects),
so every field is an `Option`; `none` models an absent property
(`undefined` when read). -/
structure Payload where
  enabled : Option Bool := none
  autoStart : Option Bool := none
  theme : Option String := none
  proximityEnabled : Option Bool := none
  sensitivity : Option ℚ := none
  proximityPeriodSeconds : Option ℚ := none
  breaksEnabled : Option Bool := none
  breakIntervalMinutes : Option ℚ := none
  breakDurationSeconds : Option ℚ := none
  snoozeMinutes : Option ℚ := none
deriving DecidableEq

/-- A full settings record viewed as a payload object (every property
present), as sent by the options page's `saveSettings`. -/
def Settings.toPayload (s : Settings) : Payload where
  enabled := some s.enabled
  autoStart := some s.autoStart
  theme := some s.theme
  proximityEnabled := some s.proximityEnabled
  sensitivity := some s.sensitivity
  proximityPeriodSeconds := some s.proximityPeriodSeconds
  breaksEnabled := some s.breaksEnabled
  breakIntervalMinutes := some s.breakIntervalMinutes
  breakDurationSeconds := some s.breakDurationSeconds
  snoozeMinutes := some s.snoozeMinutes

/-- The payload sent by the popup's proximity toggle handler
(`wireToggles`): a one-field object `\x7b proximityEnabled: checked \x7d`. -/
def proximityTogglePayload (checked : Bool) : Payload :=
  { proximityEnabled := some checked }

/-- JavaScript truthiness of a possibly-absent boolean property:
`undefined` is falsy. -/
def jsTruthy : Option Bool → Bool
  | some b => b
  | none => false

/-- The numeric settings fields constrained by `VALIDATION_RULES` in the
options page.  Each error string the source pushes names exactly one of
these fields; the embedding keeps the field tag and drops the message
text. -/
inductive SettingsField where
  | sensitivity
  | proximityPeriodSeconds
  | breakIntervalMinutes
  | breakDurationSeconds
  | snoozeMinutes
deriving DecidableEq

/-- `validateSettings` of the options page: checks each numeric field
against `VALIDATION_RULES` (sensitivity 1.1–2.0, proximity period
10–300, break interval 5–120, break duration 10–300, snooze 1–60) and
returns the violations in source order. -/
def validateSettings (s : Settings) : List SettingsField :=
  (if s.sensitivity < 11/10 ∨ 2 < s.sensitivity
    then [SettingsField.sensitivity] else [])
  ++ (if s.proximityPeriodSeconds < 10 ∨ 300 < s.proximityPeriodSeconds
    then [SettingsField.proximityPeriodSeconds] else [])
  ++ (if s.breakIntervalMinutes < 5 ∨ 120 < s.breakIntervalMinutes
    then [SettingsField.breakIntervalMinutes] else [])
  ++ (if s.breakDurationSeconds < 10 ∨ 300 < s.breakDurationSeconds
    then [SettingsField.breakDurationSeconds] else [])
  ++ (if s.snoozeMinutes < 1 ∨ 60 < s.snoozeMinutes
    then [SettingsField.snoozeMinutes] else [])

/-- The background process's observable resources: the persisted
`settings` key (absent before first install), the coordinator's module
state, the two alarms, and whether the offscreen document (which owns
the camera stream) is open. -/
structure SysState where
  storedSettings : Option Payload
  coord : CoordState
  breakAlarm : Bool
  proximityAlarm : Bool
  offscreenOpen : Bool
deriving DecidableEq

/-- Reading the `settings` key with the source's default:
`const \x7b settings = DEFAULT_SETTINGS \x7d = await chrome.storage.local.get("settings")`. -/
def getStoredSettings (sys : SysState) : Payload :=
  sys.storedSettings.getD (Settings.toPayload DEFAULT_SETTINGS)

/-- `ensureBreakTickAlarm`: sets the 1-minute break tick alarm unless
`!settings.enabled || !settings.breaksEnabled` for the stored settings
(absent fields are falsy). -/
def ensureBreakTickAlarm (sys : SysState) : SysState :=
  if jsTruthy (getStoredSettings sys).enabled
      && jsTruthy (getStoredSettings sys).breaksEnabled then
    { sys with breakAlarm := true }
  else sys

/-- `ensureProximitySampling`: sets the proximity sampling alarm unless
`!settings.enabled || !settings.proximityEnabled` for the stored
settings.  The alarm's period (`proximityPeriodSeconds / 60` minutes) is
not tracked, only its presence. -/
def ensureProximitySampling (sys : SysState) : SysState :=
  if jsTruthy (getStoredSettings sys).enabled
      && jsTruthy (getStoredSettings sys).proximityEnabled then
    { sys with proximityAlarm := true }
  else sys

/-- `ensureOffscreenDocument`: creates the offscreen document if it does
not exist; afterwards it is open either way. -/
def ensureOffscreenDocument (sys : SysState) : SysState :=
  { sys with offscreenOpen := true }

/-- The `eyeguard.settings.update` message handler: persists the payload
verbatim (no validation), clears all alarms, re-runs
`ensureBreakTickAlarm` and `ensureProximitySampling`, then — depending
on `payload.proximityEnabled` — either ensures the offscreen document
and the sampling alarm, or clears the sampling alarm only. -/
def handleSettingsUpdate (payload : Payload) (sys : SysState) : SysState :=
  let s1 : SysState := { sys with storedSettings := some payload }
  let s2 : SysState := { s1 with breakAlarm := false, proximityAlarm := false }
  let s3 := ensureBreakTickAlarm s2
  let s4 := ensureProximitySampling s3
  if jsTruthy payload.proximityEnabled then
    ensureProximitySampling (ensureOffscreenDocument s4)
  else
    { s4 with proximityAlarm := false }

/-- `saveSettings` of the options page: reads the form into a full
record, validates it, and only when the violation list is empty persists
it and sends the `eyeguard.settings.update` message; on violations it
shows the errors and returns without touching the store.  The boolean is
`true` for the success notification. -/
def saveSettings (form : Settings) (sys : SysState) : SysState × Bool :=
  if validateSettings form = [] then
    (handleSettingsUpdate (Settings.toPayload form)
      { sys with storedSettings := some (Settings.toPayload form) }, true)
  else (sys, false)

/-- The `eyeguard.request.status` response:
`activeMinutes`, `minutesRemaining = Math.max(breakIntervalMinutes -
activeMinutes, 0)`, `isBreakInProgress`, and the stored settings.
`minutesRemaining` is `none` when the stored record lacks
`breakIntervalMinutes` (the subtraction would be `NaN`). -/
structure StatusResponse where
  activeMinutes : ℕ
  minutesRemaining : Option ℚ
  isBreakInProgress : Bool
  settings : Payload
deriving DecidableEq

/-- The `eyeguard.request.status` message handler. -/
def requestStatus (sys : SysState) : StatusResponse where
  activeMinutes := sys.coord.activeMinutes
  minutesRemaining :=
    (getStoredSettings sys).breakIntervalMinutes.map
      (fun q => max (q - (sys.coord.activeMinutes : ℚ)) 0)
  isBreakInProgress := sys.coord.isBreakInProgress
  settings := getStoredSettings sys

/-- Default settings with an out-of-range sensitivity of 2.5. -/
def badSensitivitySettings : Settings :=
  { DEFAULT_SETTINGS with sensitivity := 5/2 }

/-- Default settings with the proximity subsystem turned off. -/
def disableProximitySettings : Settings :=
  { DEFAULT_SETTINGS with proximityEnabled := false }

/-- A running system: default settings stored, both alarms set, the
offscreen document open, 7 active minutes elapsed. -/
def sysRunning : SysState where
  storedSettings := some (Settings.toPayload DEFAULT_SETTINGS)
  coord := { activeMinutes := 7, isBreakInProgress := false, snoozedUntilMs := 0 }
  breakAlarm := true
  proximityAlarm := true
  offscreenOpen := true

/-- C5 (code bug): the background `eyeguard.settings.update` handler
persists its payload verbatim, with no validation and no completeness
check.  The popup toggle's one-field payload replaces the whole stored
settings record (every other field becomes absent), and a full record
whose sensitivity is 2.5 — which `validateSettings` rejects — is also
persisted unchanged. -/
theorem settings_update_persists_unvalidated :
    (handleSettingsUpdate (proximityTogglePayload false)
        sysRunning).storedSettings = some (proximityTogglePayload false) ∧
    (proximityTogglePayload false).breakIntervalMinutes = none ∧
    (proximityTogglePayload false).enabled = none ∧
    validateSettings badSensitivitySettings ≠ [] ∧
    (handleSettingsUpdate (Settings.toPayload badSensitivitySettings)
        sysRunning).storedSettings
      = some (Settings.toPayload badSensitivitySettings) := by
  refine ⟨rfl, rfl, rfl, ?_, rfl⟩
  norm_num [validateSettings, badSensitivitySettings, DEFAULT_SETTINGS]

/-- The lower bounds of `VALIDATION_RULES` in the options page
(`min` per field). -/
def ruleMin : SettingsField → ℚ
  | SettingsField.sensitivity => 11/10
  | SettingsField.proximityPeriodSeconds => 10
  | SettingsField.breakIntervalMinutes => 5
  | SettingsField.breakDurationSeconds => 10
  | SettingsField.snoozeMinutes => 1

/-- The upper bounds of `VALIDATION_RULES` in the options page
(`max` per field). -/
def ruleMax : SettingsField → ℚ
  | SettingsField.sensitivity => 2
  | SettingsField.proximityPeriodSeconds => 300
  | SettingsField.breakIntervalMinutes => 120
  | SettingsField.breakDurationSeconds => 300
  | SettingsField.snoozeMinutes => 60

/-- The numeric field of a settings record that a validation rule
constrains. -/
def fieldValue (s : Settings) : SettingsField → ℚ
  | SettingsField.sensitivity => s.sensitivity
  | SettingsField.proximityPeriodSeconds => s.proximityPeriodSeconds
  | SettingsField.breakIntervalMinutes => s.breakIntervalMinutes
  | SettingsField.breakDurationSeconds => s.breakDurationSeconds
  | SettingsField.snoozeMinutes => s.snoozeMinutes

/-- C6: `validateSettings` accepts the defaults with an empty violation
list; for every record in which any of the five numeric fields falls
outside its documented range, the result is a non-empty list containing
a violation naming that field; and the options save path applies
nothing at all for any record with a non-empty violation list. -/
theorem validator_accepts_defaults_rejects_out_of_range
    (s : Settings) (f : SettingsField)
    (hout : fieldValue s f < ruleMin f ∨ ruleMax f < fieldValue s f)
    (s2 : Settings) (sys : SysState) (h2 : validateSettings s2 ≠ []) :
    validateSettings DEFAULT_SETTINGS = [] ∧
    f ∈ validateSettings s ∧
    validateSettings s ≠ [] ∧
    saveSettings s2 sys = (sys, false) := by
  have hdef : validateSettings DEFAULT_SETTINGS = [] := by
    norm_num [validateSettings, DEFAULT_SETTINGS]
  have hm : f ∈ validateSettings s := by
    cases f <;> simp only [fieldValue, ruleMin, ruleMax] at hout <;>
      simp [validateSettings, if_pos hout]
  exact ⟨hdef, hm, List.ne_nil_of_mem hm, by rw [saveSettings, if_neg h2]⟩

/-- Witness for C6 at the record with sensitivity 2.5. -/
theorem validator_accepts_defaults_rejects_out_of_range_witness :
    validateSettings DEFAULT_SETTINGS = [] ∧
    SettingsField.sensitivity ∈ validateSettings badSensitivitySettings ∧
    validateSettings badSensitivitySettings ≠ [] ∧
    saveSettings badSensitivitySettings sysRunning = (sysRunning, false) :=
  validator_accepts_defaults_rejects_out_of_range badSensitivitySettings
    SettingsField.sensitivity
    (by norm_num [fieldValue, ruleMin, ruleMax, badSensitivitySettings,
      DEFAULT_SETTINGS])
    badSensitivitySettings sysRunning
    (by norm_num [validateSettings, badSensitivitySettings, DEFAULT_SETTINGS])

/-- C10 counterexample: a settings update that disables proximity does
not close the offscreen document — the camera resource is not released
(`offscreenOpen` stays `true`), contrary to the claim. -/
theorem settings_update_keeps_offscreen_open :
    sysRunning.offscreenOpen = true ∧
    (handleSettingsUpdate (Settings.toPayload disableProximitySettings)
        sysRunning).offscreenOpen = true :=
  ⟨rfl, rfl⟩

/-- C10 as amended: a settings update whose payload disables proximity
cancels the pending proximity sampling schedule and leaves the
coordinator state and the offscreen document (hence the camera) exactly
as they were, and a subsequent status query still returns valid
break-state fields computed from the coordinator state and the new
settings. -/
theorem settings_update_disable_proximity
    (s : Settings) (sys : SysState) (hprox : s.proximityEnabled = false) :
    (handleSettingsUpdate (Settings.toPayload s) sys).proximityAlarm = false ∧
    (handleSettingsUpdate (Settings.toPayload s) sys).offscreenOpen
      = sys.offscreenOpen ∧
    (handleSettingsUpdate (Settings.toPayload s) sys).coord = sys.coord ∧
    requestStatus (handleSettingsUpdate (Settings.toPayload s) sys)
      = { activeMinutes := sys.coord.activeMinutes,
          minutesRemaining :=
            some (max (s.breakIntervalMinutes - (sys.coord.activeMinutes : ℚ)) 0),
          isBreakInProgress := sys.coord.isBreakInProgress,
          settings := Settings.toPayload s } := by
  cases hen : s.enabled <;> cases hbk : s.breaksEnabled <;>
    simp [handleSettingsUpdate, ensureBreakTickAlarm, ensureProximitySampling,
      ensureOffscreenDocument, getStoredSettings, jsTruthy, Settings.toPayload,
      requestStatus, hprox, hen, hbk]

/-- Witness for the amended C10 at the concrete running system. -/
theorem settings_update_disable_proximity_witness :
    (handleSettingsUpdate (Settings.toPayload disableProximitySettings)
        sysRunning).proximityAlarm = false ∧
    (handleSettingsUpdate (Settings.toPayload disableProximitySettings)
        sysRunning).offscreenOpen = sysRunning.offscreenOpen ∧
    (handleSettingsUpdate (Settings.toPayload disableProximitySettings)
        sysRunning).coord = sysRunning.coord ∧
    requestStatus (handleSettingsUpdate
        (Settings.toPayload disableProximitySettings) sysRunning)
      = { activeMinutes := sysRunning.coord.activeMinutes,
          minutesRemaining :=
            some (max (disableProximitySettings.breakIntervalMinutes
              - (sysRunning.coord.activeMinutes : ℚ)) 0),
          isBreakInProgress := sysRunning.coord.isBreakInProgress,
          settings := Settings.toPayload disableProximitySettings } :=
  settings_update_disable_proximity disableProximitySettings sysRunning rfl

/-- The skin-tone pixel predicate of `offscreen.js` (the canonical,
message-proxying sampler):
`r > 60 && g > 20 && b > 10 && r > g && r > b && Math.abs(r - g) > 5`. -/
def isSkin (r g b : ℕ) : Bool :=
  decide (60 < r ∧ 20 < g ∧ 10 < b ∧ g < r ∧ b < r ∧
    5 < ((r : ℤ) - (g : ℤ)).natAbs)

/-- The skin-tone pixel predicate of the older direct-storage sampler
variant:
`r > 95 && g > 40 && b > 20 && r > g && r > b && Math.abs(r - g) > 15`. -/
def isSkinV2 (r g b : ℕ) : Bool :=
  decide (95 < r ∧ 40 < g ∧ 20 < b ∧ g < r ∧ b < r ∧
    15 < ((r : ℤ) - (g : ℤ)).natAbs)

/-- The loop of `estimateFaceSize`: walk the RGBA byte array in steps of
16 bytes (every 4th pixel), reading `data[i]`, `data[i+1]`, `data[i+2]`
as r, g, b, and return `(skinPixels, totalPixels)`.  A read past the end
yields `undefined` in JavaScript, whose comparisons are all false; the
default 0 here classifies the same pixels as non-skin because every
channel has a positive lower bound. -/
def countSkin (f : ℕ → ℕ → ℕ → Bool) : List ℕ → ℕ × ℕ
  | [] => (0, 0)
  | r :: rest =>
    let s := countSkin f (rest.drop 15)
    (s.1 + (if f r (rest.getD 0 0) (rest.getD 1 0) then 1 else 0), s.2 + 1)
termination_by l => l.length
decreasing_by simp; omega

/-- `estimateFaceSize` of `offscreen.js`: the fraction of
skin-classified pixels among the strided subsample.  On an empty frame
the source computes `0/0 = NaN`; Lean's `0/0 = 0` agrees with it at the
only use site, the `faceSize > 0` test. -/
def estimateFaceSize (data : List ℕ) : ℚ :=
  ((countSkin isSkin data).1 : ℚ) / ((countSkin isSkin data).2 : ℚ)

/-- `estimateFaceSize` of the older sampler variant: same loop,
stricter predicate. -/
def estimateFaceSizeV2 (data : List ℕ) : ℚ :=
  ((countSkin isSkinV2 data).1 : ℚ) / ((countSkin isSkinV2 data).2 : ℚ)

/-- The byte offsets the loop examines: `0, 16, 32, ...` up to the data
length, described independently of the loop. -/
def sampleOffsets (len : ℕ) : List ℕ :=
  (List.range ((len + 15) / 16)).map (fun k => 16 * k)

/-- Whether the pixel starting at byte offset `i` is classified as skin
by predicate `f`. -/
def skinAt (f : ℕ → ℕ → ℕ → Bool) (data : List ℕ) (i : ℕ) : Bool :=
  f (data.getD i 0) (data.getD (i + 1) 0) (data.getD (i + 2) 0)

/-- The fraction of skin-classified pixels among the strided subsample,
stated over `sampleOffsets` rather than the loop. -/
def skinFraction (f : ℕ → ℕ → ℕ → Bool) (data : List ℕ) : ℚ :=
  (((sampleOffsets data.length).countP (skinAt f data) : ℕ) : ℚ)
    / (((sampleOffsets data.length).length : ℕ) : ℚ)

theorem getD_drop (l : List ℕ) (n i : ℕ) :
    (l.drop n).getD i 0 = l.getD (n + i) 0 := by
  simp [List.getD, List.getElem?_drop]

theorem skinAt_drop16 (f : ℕ → ℕ → ℕ → Bool) (l : List ℕ) (i : ℕ) :
    skinAt f (l.drop 16) i = skinAt f l (16 + i) := by
  unfold skinAt
  rw [getD_drop, getD_drop, getD_drop]
  have e1 : 16 + (i + 1) = 16 + i + 1 := by omega
  have e2 : 16 + (i + 2) = 16 + i + 2 := by omega
  rw [e1, e2]

theorem sampleOffsets_succ (n : ℕ) (h : 1 ≤ n) :
    sampleOffsets n = 0 :: (sampleOffsets (n - 16)).map (fun i => 16 + i) := by
  have h16 : (n + 15) / 16 = (n - 16 + 15) / 16 + 1 := by omega
  unfold sampleOffsets
  rw [h16, List.range_succ_eq_map]
  simp only [List.map_cons, List.map_map, Nat.mul_zero]
  refine congrArg _ ?_
  apply List.map_congr_left
  intro a _
  simp only [Function.comp_apply]
  omega

/-- The loop of `estimateFaceSize` visits exactly the strided offsets:
its skin count is the number of offsets whose pixel is skin-classified,
and its total count is the number of offsets. -/
theorem countSkin_eq (f : ℕ → ℕ → ℕ → Bool) :
    ∀ (n : ℕ) (l : List ℕ), l.length = n →
      countSkin f l
        = ((sampleOffsets n).countP (skinAt f l), (sampleOffsets n).length) := by
  intro n
  induction n using Nat.strong_induction_on with
  | _ n ih =>
    intro l hl
    match l with
    | [] =>
      subst hl
      simp [countSkin, sampleOffsets]
    | r :: rest =>
      have hn : 1 ≤ n := by
        subst hl
        simp
      have hdl : ((r :: rest).drop 16).length = n - 16 := by
        subst hl
        simp
      have ihd := ih (n - 16) (by omega) ((r :: rest).drop 16) hdl
      have hdrop : (r :: rest).drop 16 = rest.drop 15 := by
        simp [List.drop_succ_cons]
      have hcount : countSkin f (r :: rest)
          = ((countSkin f (rest.drop 15)).1
              + (if f r (rest.getD 0 0) (rest.getD 1 0) then 1 else 0),
             (countSkin f (rest.drop 15)).2 + 1) := by
        rw [countSkin]
      rw [hcount, sampleOffsets_succ n hn]
      have hhead : skinAt f (r :: rest) 0 = f r (rest.getD 0 0) (rest.getD 1 0) := by
        simp [skinAt]
      have htail : ((sampleOffsets (n - 16)).map (fun i => 16 + i)).countP
          (skinAt f (r :: rest))
          = (sampleOffsets (n - 16)).countP (skinAt f ((r :: rest).drop 16)) := by
        rw [List.countP_map]
        apply List.countP_congr
        intro a _
        simp only [Function.comp_apply]
        rw [skinAt_drop16]
      rw [hdrop] at ihd
      rw [Prod.mk.injEq]
      refine ⟨?_, ?_⟩
      · rw [List.countP_cons, htail, hdrop, ihd, hhead]
      · rw [List.length_cons, List.length_map, ihd]

/-- The loop result as a fraction: `estimateFaceSize` returns the
fraction of skin-classified pixels among the strided subsample. -/
theorem estimateFaceSize_eq_skinFraction (data : List ℕ) :
    estimateFaceSize data = skinFraction isSkin data := by
  unfold estimateFaceSize skinFraction
  rw [countSkin_eq isSkin data.length data rfl]

/-- Same for the older variant, with its own predicate. -/
theorem estimateFaceSizeV2_eq_skinFraction (data : List ℕ) :
    estimateFaceSizeV2 data = skinFraction isSkinV2 data := by
  unfold estimateFaceSizeV2 skinFraction
  rw [countSkin_eq isSkinV2 data.length data rfl]

/-- C7 counterexample: the pixel (70, 30, 15) satisfies the documented
rule `r>60 ∧ g>20 ∧ b>10 ∧ r>g ∧ r>b ∧ |r-g|>5` and is counted as skin
by `offscreen.js`, but the other sampler variant does not count it —
the exact predicate is not used by every sampler variant. -/
theorem skin_rule_not_shared_counterexample :
    isSkin 70 30 15 = true ∧ isSkinV2 70 30 15 = false := by
  decide

/-- C7 as amended: the canonical `offscreen.js` sampler counts a pixel
as skin exactly when `r>60 ∧ g>20 ∧ b>10 ∧ r>g ∧ r>b ∧ |r-g|>5`, and
both variants return the fraction of pixels their own predicate
classifies as skin among the strided subsample; the older variant uses
the stricter constants `r>95 ∧ g>40 ∧ b>20 ∧ |r-g|>15` instead, so the
predicate is not shared. -/
theorem skin_rule_and_fraction :
    (∀ r g b : ℕ, isSkin r g b = true ↔
      (60 < r ∧ 20 < g ∧ 10 < b ∧ g < r ∧ b < r ∧
        5 < ((r : ℤ) - (g : ℤ)).natAbs)) ∧
    (∀ data : List ℕ, estimateFaceSize data = skinFraction isSkin data) ∧
    (∀ data : List ℕ, estimateFaceSizeV2 data = skinFraction isSkinV2 data) ∧
    (∀ r g b : ℕ, isSkinV2 r g b = true ↔
      (95 < r ∧ 40 < g ∧ 20 < b ∧ g < r ∧ b < r ∧
        15 < ((r : ℤ) - (g : ℤ)).natAbs)) ∧
    isSkin 70 30 15 ≠ isSkinV2 70 30 15 := by
  refine ⟨?_, estimateFaceSize_eq_skinFraction,
    estimateFaceSizeV2_eq_skinFraction, ?_, by decide⟩
  · intro r g b
    simp [isSkin]
  · intro r g b
    simp [isSkinV2]

/-- The persisted calibration record:
`\x7b baselineFaceSize, timestamp \x7d`. -/
structure CalibrationData where
  baselineFaceSize : ℚ
  timestamp : ℚ
deriving DecidableEq

/-- The sampler's module state: the in-memory calibration, the
`window.calibrationSamples` accumulator, and `lastSampleTime`. -/
structure SamplerState where
  calibrationData : Option CalibrationData
  calibrationSamples : List ℚ
  lastSampleTime : ℚ
deriving DecidableEq

/-- The sampler's state right after initialization with no stored
calibration. -/
def initSampler : SamplerState where
  calibrationData := none
  calibrationSamples := []
  lastSampleTime := 0

/-- `checkProximity` of `offscreen.js`, given the calibration record the
caller has already checked is present and the sensitivity resolved by
the awaited `getSensitivity()` read-through:
`faceSize / baselineFaceSize > PROXIMITY_THRESHOLD * sensitivity` with
`PROXIMITY_THRESHOLD = 0.7`, a strict comparison. -/
def checkProximity (faceSize : ℚ) (cd : CalibrationData)
    (sensitivity : ℚ) : Bool :=
  decide (faceSize / cd.baselineFaceSize > 7/10 * sensitivity)

/-- The threshold computed by the older sampler variant:
`PROXIMITY_THRESHOLD * getSensitivity()` where `getSensitivity` is an
async function whose returned Promise is never awaited, so the product
is `NaN` (modelled as `none`). -/
def thresholdV2 : Option ℚ := none

/-- `checkProximity` of the older sampler variant.  Every JavaScript
comparison against `NaN` is false, so the `none` threshold makes the
check return `false` for every sample. -/
def checkProximityV2 (faceSize : ℚ) (cd : CalibrationData) : Bool :=
  match thresholdV2 with
  | none => false
  | some t => decide (faceSize / cd.baselineFaceSize > t)

/-- Observable outcome of one `performSample` invocation in the
canonical sampler: the new sampler state, emitted messages, and the
calibration record persisted through the storage proxy, if any. -/
structure SampleResult where
  state : SamplerState
  events : List Msg
  persisted : Option CalibrationData
deriving DecidableEq

/-- `performCalibration` of `offscreen.js`: push the sample onto the
accumulator; once it holds `CALIBRATION_SAMPLES = 5` values, set the
baseline to their arithmetic mean, stamp it with the current time and
persist it.  The accumulator is not cleared. -/
def performCalibration (now faceSize : ℚ) (st : SamplerState) : SampleResult :=
  let samples := st.calibrationSamples ++ [faceSize]
  if samples.length < 5 then
    { state := { st with calibrationSamples := samples },
      events := [], persisted := none }
  else
    let avg := samples.sum / (samples.length : ℚ)
    let cd : CalibrationData := { baselineFaceSize := avg, timestamp := now }
    let st2 := { st with calibrationSamples := samples, calibrationData := some cd }
    { state := st2, events := [], persisted := some cd }

/-- `performSample` of `offscreen.js` along its successful capture path:
the 2-second floor on the sample interval, then — for a positive
estimated face size — either calibration (no calibration yet) or the
proximity check, which emits a proximity-warning message when it fires.
The re-entrancy flag, camera-readiness early returns and status-text
updates are environmental and not modelled; `faceSize` stands for
`estimateFaceSize` applied to the captured frame. -/
def performSample (now sensitivity faceSize : ℚ)
    (st : SamplerState) : SampleResult :=
  if now - st.lastSampleTime < 2000 then
    { state := st, events := [], persisted := none }
  else
    let st1 := { st with lastSampleTime := now }
    if 0 < faceSize then
      match st1.calibrationData with
      | none => performCalibration now faceSize st1
      | some cd =>
        { state := st1,
          events := if checkProximity faceSize cd sensitivity
            then [Msg.proximityWarning] else [],
          persisted := none }
    else
      { state := st1, events := [], persisted := none }

/-- Folding a sequence of `(time, faceSize)` samples through
`performSample`, keeping the state. -/
def runSampler (sensitivity : ℚ) (inputs : List (ℚ × ℚ))
    (st : SamplerState) : SamplerState :=
  inputs.foldl (fun s p => (performSample p.1 sensitivity p.2 s).state) st

theorem runSampler_nil (sens : ℚ) (st : SamplerState) :
    runSampler sens [] st = st := rfl

theorem runSampler_cons (sens t a : ℚ) (rest : List (ℚ × ℚ))
    (st : SamplerState) :
    runSampler sens ((t, a) :: rest) st
      = runSampler sens rest (performSample t sens a st).state := rfl

/-- One accumulating calibration step: an uncalibrated sampler past the
2-second floor pushes a positive sample onto the accumulator while it
still holds fewer than 5 values. -/
theorem performSample_accum (now sens a : ℚ) (samples res : List ℚ) (t : ℚ)
    (ht : ¬ now - t < 2000) (ha : 0 < a) (hres : samples ++ [a] = res)
    (hlen : res.length < 5) :
    (performSample now sens a (⟨none, samples, t⟩ : SamplerState)).state
      = ⟨none, res, now⟩ := by
  subst hres
  rw [performSample, if_neg ht]
  simp only [if_pos ha]
  rw [performCalibration]
  simp only [if_pos hlen]

/-- The completing calibration step: once the accumulator reaches 5
values, the baseline becomes their mean, stamped and persisted. -/
theorem performSample_fifth (now sens a : ℚ) (samples res : List ℚ) (t : ℚ)
    (ht : ¬ now - t < 2000) (ha : 0 < a) (hres : samples ++ [a] = res)
    (hlen : ¬ res.length < 5) :
    performSample now sens a (⟨none, samples, t⟩ : SamplerState)
      = ⟨⟨some ⟨res.sum / (res.length : ℚ), now⟩, res, now⟩, [],
         some ⟨res.sum / (res.length : ℚ), now⟩⟩ := by
  subst hres
  rw [performSample, if_neg ht]
  simp only [if_pos ha]
  rw [performCalibration]
  simp only [if_neg hlen]

/-- A sample against an existing calibration: the calibration is left
unchanged and a warning is emitted exactly when `checkProximity`
fires. -/
theorem performSample_calibrated (now sens a : ℚ) (cd : CalibrationData)
    (samples : List ℚ) (t : ℚ) (ht : ¬ now - t < 2000) (ha : 0 < a) :
    performSample now sens a (⟨some cd, samples, t⟩ : SamplerState)
      = ⟨⟨some cd, samples, now⟩,
         if checkProximity a cd sens then [Msg.proximityWarning] else [],
         none⟩ := by
  rw [performSample, if_neg ht]
  simp only [if_pos ha]

/-- C8: starting with no calibration, five positive samples produce a
baseline equal to their arithmetic mean, persisted with the timestamp of
the fifth sample; a sixth sample leaves the baseline untouched. -/
theorem calibration_mean_of_five
    (a1 a2 a3 a4 a5 a6 : ℚ)
    (h1 : 0 < a1) (h2 : 0 < a2) (h3 : 0 < a3) (h4 : 0 < a4) (h5 : 0 < a5)
    (h6 : 0 < a6) :
    (runSampler (3/2) [(2000, a1), (4000, a2), (6000, a3), (8000, a4),
        (10000, a5)] initSampler).calibrationData
      = some ⟨(a1 + a2 + a3 + a4 + a5) / 5, 10000⟩ ∧
    (performSample 10000 (3/2) a5
        (runSampler (3/2) [(2000, a1), (4000, a2), (6000, a3), (8000, a4)]
          initSampler)).persisted
      = some ⟨(a1 + a2 + a3 + a4 + a5) / 5, 10000⟩ ∧
    (runSampler (3/2) [(2000, a1), (4000, a2), (6000, a3), (8000, a4),
        (10000, a5), (12000, a6)] initSampler).calibrationData
      = some ⟨(a1 + a2 + a3 + a4 + a5) / 5, 10000⟩ := by
  have s1 := performSample_accum 2000 (3/2) a1 [] [a1] 0
    (by norm_num) h1 rfl (by simp)
  have s2 := performSample_accum 4000 (3/2) a2 [a1] [a1, a2] 2000
    (by norm_num) h2 rfl (by simp)
  have s3 := performSample_accum 6000 (3/2) a3 [a1, a2] [a1, a2, a3] 4000
    (by norm_num) h3 rfl (by simp)
  have s4 := performSample_accum 8000 (3/2) a4 [a1, a2, a3] [a1, a2, a3, a4]
    6000 (by norm_num) h4 rfl (by simp)
  have hsum : ([a1, a2, a3, a4, a5] : List ℚ).sum
        / ((([a1, a2, a3, a4, a5] : List ℚ).length : ℕ) : ℚ)
      = (a1 + a2 + a3 + a4 + a5) / 5 := by
    norm_num [List.sum_cons, List.sum_nil]
    ring_nf
  have s5 := performSample_fifth 10000 (3/2) a5 [a1, a2, a3, a4]
    [a1, a2, a3, a4, a5] 8000 (by norm_num) h5 rfl (by simp)
  rw [hsum] at s5
  have s6 := performSample_calibrated 12000 (3/2) a6
    (⟨(a1 + a2 + a3 + a4 + a5) / 5, 10000⟩ : CalibrationData)
    [a1, a2, a3, a4, a5] 10000 (by norm_num) h6
  have r4 : runSampler (3/2) [(2000, a1), (4000, a2), (6000, a3), (8000, a4)]
        initSampler = ⟨none, [a1, a2, a3, a4], 8000⟩ := by
    simp only [initSampler]
    rw [runSampler_cons, s1, runSampler_cons, s2, runSampler_cons, s3,
      runSampler_cons, s4, runSampler_nil]
  have r5 : runSampler (3/2) [(2000, a1), (4000, a2), (6000, a3), (8000, a4),
        (10000, a5)] initSampler
      = ⟨some ⟨(a1 + a2 + a3 + a4 + a5) / 5, 10000⟩, [a1, a2, a3, a4, a5],
         10000⟩ := by
    simp only [initSampler]
    rw [runSampler_cons, s1, runSampler_cons, s2, runSampler_cons, s3,
      runSampler_cons, s4, runSampler_cons, s5, runSampler_nil]
  have r6 : runSampler (3/2) [(2000, a1), (4000, a2), (6000, a3), (8000, a4),
        (10000, a5), (12000, a6)] initSampler
      = ⟨some ⟨(a1 + a2 + a3 + a4 + a5) / 5, 10000⟩, [a1, a2, a3, a4, a5],
         12000⟩ := by
    simp only [initSampler]
    rw [runSampler_cons, s1, runSampler_cons, s2, runSampler_cons, s3,
      runSampler_cons, s4, runSampler_cons, s5, runSampler_cons, s6,
      runSampler_nil]
  refine ⟨by rw [r5], by rw [r4, s5], by rw [r6]⟩

/-- Witness for C8 with the five samples all equal to 1/10 and a sixth
sample 1/2. -/
theorem calibration_mean_of_five_witness :
    (runSampler (3/2) [(2000, 1/10), (4000, 1/10), (6000, 1/10),
        (8000, 1/10), (10000, 1/10)] initSampler).calibrationData
      = some ⟨(1/10 + 1/10 + 1/10 + 1/10 + 1/10) / 5, 10000⟩ ∧
    (performSample 10000 (3/2) (1/10)
        (runSampler (3/2) [(2000, 1/10), (4000, 1/10), (6000, 1/10),
          (8000, 1/10)] initSampler)).persisted
      = some ⟨(1/10 + 1/10 + 1/10 + 1/10 + 1/10) / 5, 10000⟩ ∧
    (runSampler (3/2) [(2000, 1/10), (4000, 1/10), (6000, 1/10),
        (8000, 1/10), (10000, 1/10), (12000, 1/2)] initSampler).calibrationData
      = some ⟨(1/10 + 1/10 + 1/10 + 1/10 + 1/10) / 5, 10000⟩ :=
  calibration_mean_of_five (1/10) (1/10) (1/10) (1/10) (1/10) (1/2)
    (by norm_num) (by norm_num) (by norm_num) (by norm_num) (by norm_num)
    (by norm_num)

/-- A calibrated sampler with baseline 1/10. -/
def calibratedSampler : SamplerState where
  calibrationData := some ⟨1/10, 0⟩
  calibrationSamples := []
  lastSampleTime := 0

/-- C9 (code bug): in the canonical sampler, `checkProximity` fires
exactly when `faceSize / baseline > 0.7 * sensitivity` (strictly — the
boundary sample 21/20 against baseline 1 and sensitivity 3/2 does not
fire), and a persistently close posture re-warns on every sample; but in
the older variant the threshold is `0.7 * Promise = NaN`, so the same
over-threshold sample (ratio 2 against threshold 1.05) produces no
warning at all. -/
theorem proximity_threshold_divergence :
    checkProximity (1/5) (⟨1/10, 0⟩ : CalibrationData) (3/2) = true ∧
    ((1/5 : ℚ) / (1/10) > 7/10 * (3/2)) ∧
    checkProximity (21/20) (⟨1, 0⟩ : CalibrationData) (3/2) = false ∧
    checkProximityV2 (1/5) (⟨1/10, 0⟩ : CalibrationData) = false ∧
    (performSample 2000 (3/2) (1/5) calibratedSampler).events
      = [Msg.proximityWarning] ∧
    (performSample 4000 (3/2) (1/5)
        (performSample 2000 (3/2) (1/5) calibratedSampler).state).events
      = [Msg.proximityWarning] := by
  refine ⟨?_, by norm_num, ?_, rfl, ?_, ?_⟩
  · norm_num [checkProximity]
  · norm_num [checkProximity]
  · norm_num [performSample, calibratedSampler, checkProximity]
  · norm_num [performSample, calibratedSampler, checkProximity]

end EyeGuard
